import Mathlib

/-!
Verification development for the C interoperability shims of soto-core:
the OpenSSL HMAC context version shim (Sources/CAWSSDKOpenSSL/shims.c and
its header), the expat symbol-prefix table
(Sources/CAWSExpat/include/expat_prefix_symbols.h), and the CRC32/CRC32C
checksum headers (Sources/CSotoCRC/include/crc32.h and
Sources/CSotoCore/include/crc32.h).

The OpenSSL library itself is external: its primitives
(OPENSSL_malloc, HMAC_CTX_init, HMAC_CTX_cleanup, OPENSSL_free,
HMAC_CTX_new, HMAC_CTX_free) are modelled abstractly, per their documented
contracts, as transformers of an abstract library state that also emit a
trace of the primitive calls made.  The shim functions themselves
(AWSSDK_HMAC_CTX_new, AWSSDK_HMAC_CTX_free) are embedded line by line from
shims.c, one definition per compile branch of the preprocessor
conditional.
-/

/-- A primitive call into the underlying OpenSSL library, recorded in a
trace.  A handle is a natural number standing for a non-null pointer;
`Option Nat` is a possibly-null pointer (`none` = NULL). -/
inductive Event where
  /-- `OPENSSL_malloc` returned the given pointer (`none` = NULL). -/
  | malloc (h : Option Nat)
  /-- `HMAC_CTX_init` ran on the given non-null context. -/
  | init (h : Nat)
  /-- `HMAC_CTX_cleanup` ran on the given non-null context. -/
  | cleanup (h : Nat)
  /-- `OPENSSL_free` released the given non-null block. -/
  | osslFree (h : Nat)
deriving Repr, DecidableEq

/-- Abstract state of the underlying OpenSSL library: which successive
allocation requests will succeed (the allocator may fail), the next fresh
handle, and which handles are currently allocated resp. initialized. -/
structure LibState where
  /-- Outcome of each successive allocation request; an empty schedule
  means every further request fails. -/
  allocSchedule : List Bool
  /-- Next fresh (never yet handed out) handle. -/
  nextHandle : Nat
  /-- Handles currently backed by an allocated block. -/
  allocated : List Nat
  /-- Handles whose internal HMAC state is currently initialized. -/
  initialized : List Nat
deriving Repr, DecidableEq

/-- Model of `OPENSSL_malloc`: consumes the next allocation outcome; on
success returns a fresh handle and records it allocated, on failure
returns NULL.  Emits the malloc event. -/
def OPENSSL_malloc (s : LibState) : Option Nat × LibState × List Event :=
  match s.allocSchedule with
  | [] => (none, s, [Event.malloc none])
  | ok :: rest =>
      if ok then
        (some s.nextHandle,
         { s with allocSchedule := rest,
                  nextHandle := s.nextHandle + 1,
                  allocated := s.nextHandle :: s.allocated },
         [Event.malloc (some s.nextHandle)])
      else
        (none, { s with allocSchedule := rest }, [Event.malloc none])

/-- Model of `HMAC_CTX_init` (pre-1.1.0 API): marks the context's
internal state initialized. -/
def HMAC_CTX_init (h : Nat) (s : LibState) : LibState × List Event :=
  ({ s with initialized := h :: s.initialized }, [Event.init h])

/-- Model of `HMAC_CTX_cleanup` (pre-1.1.0 API): tears down the context's
internal state. -/
def HMAC_CTX_cleanup (h : Nat) (s : LibState) : LibState × List Event :=
  ({ s with initialized := s.initialized.filter (· ≠ h) },
   [Event.cleanup h])

/-- Model of `OPENSSL_free`: releases the allocated block. -/
def OPENSSL_free (h : Nat) (s : LibState) : LibState × List Event :=
  ({ s with allocated := s.allocated.filter (· ≠ h) },
   [Event.osslFree h])

/-- Model of `HMAC_CTX_new` (OpenSSL ≥ 1.1.0 / LibreSSL ≥ 2.7.0): the
library's own allocating constructor; per its documented contract it
allocates a context, initializes it, and returns it, or returns NULL if
allocation fails. -/
def HMAC_CTX_new (s : LibState) : Option Nat × LibState × List Event :=
  match OPENSSL_malloc s with
  | (none, s1, e1) => (none, s1, e1)
  | (some h, s1, e1) =>
      match HMAC_CTX_init h s1 with
      | (s2, e2) => (some h, s2, e1 ++ e2)

/-- Model of `HMAC_CTX_free` (OpenSSL ≥ 1.1.0 / LibreSSL ≥ 2.7.0): the
library's own destructor; per its documented contract it does nothing on
NULL, and otherwise tears down the internal state and releases the
block. -/
def HMAC_CTX_free (ctx : Option Nat) (s : LibState) : LibState × List Event :=
  match ctx with
  | none => (s, [])
  | some h =>
      match HMAC_CTX_cleanup h s with
      | (s1, e1) =>
          match OPENSSL_free h s1 with
          | (s2, e2) => (s2, e1 ++ e2)

/-- `AWSSDK_HMAC_CTX_new`, legacy compile branch
(`OPENSSL_VERSION_NUMBER < 0x10100000L` or old LibreSSL), shims.c:
`ctx = OPENSSL_malloc(sizeof(HMAC_CTX)); if (ctx != NULL)
HMAC_CTX_init(ctx); return ctx;`. -/
def AWSSDK_HMAC_CTX_new_legacy (s : LibState) :
    Option Nat × LibState × List Event :=
  match OPENSSL_malloc s with
  | (ctx, s1, e1) =>
      match ctx with
      | some h =>
          match HMAC_CTX_init h s1 with
          | (s2, e2) => (some h, s2, e1 ++ e2)
      | none => (none, s1, e1)

/-- `AWSSDK_HMAC_CTX_new`, modern compile branch, shims.c:
`return HMAC_CTX_new();`. -/
def AWSSDK_HMAC_CTX_new_modern (s : LibState) :
    Option Nat × LibState × List Event :=
  HMAC_CTX_new s

/-- `AWSSDK_HMAC_CTX_free`, legacy compile branch, shims.c:
`if (ctx != NULL) { HMAC_CTX_cleanup(ctx); OPENSSL_free(ctx); }`. -/
def AWSSDK_HMAC_CTX_free_legacy (ctx : Option Nat) (s : LibState) :
    LibState × List Event :=
  match ctx with
  | none => (s, [])
  | some h =>
      match HMAC_CTX_cleanup h s with
      | (s1, e1) =>
          match OPENSSL_free h s1 with
          | (s2, e2) => (s2, e1 ++ e2)

/-- `AWSSDK_HMAC_CTX_free`, modern compile branch, shims.c:
`HMAC_CTX_free(ctx);`. -/
def AWSSDK_HMAC_CTX_free_modern (ctx : Option Nat) (s : LibState) :
    LibState × List Event :=
  HMAC_CTX_free ctx s

/-- `AWSSDK_HMAC_CTX_new` followed by `AWSSDK_HMAC_CTX_free` of the
returned handle, legacy branch: returns the handle the caller saw and the
final library state. -/
def roundTripLegacy (s : LibState) : Option Nat × LibState :=
  match AWSSDK_HMAC_CTX_new_legacy s with
  | (ctx, s1, _) =>
      match AWSSDK_HMAC_CTX_free_legacy ctx s1 with
      | (s2, _) => (ctx, s2)

/-- `AWSSDK_HMAC_CTX_new` followed by `AWSSDK_HMAC_CTX_free` of the
returned handle, modern branch. -/
def roundTripModern (s : LibState) : Option Nat × LibState :=
  match AWSSDK_HMAC_CTX_new_modern s with
  | (ctx, s1, _) =>
      match AWSSDK_HMAC_CTX_free_modern ctx s1 with
      | (s2, _) => (ctx, s2)

/-- A library state is well formed when its next fresh handle is indeed
fresh: not currently allocated or initialized. -/
def LibState.WF (s : LibState) : Prop :=
  s.nextHandle ∉ s.allocated ∧ s.nextHandle ∉ s.initialized

instance (s : LibState) : Decidable s.WF := by
  unfold LibState.WF; infer_instance

/-!
Symbol-prefix table of Sources/CAWSExpat/include/expat_prefix_symbols.h.
The C preprocessor's token pasting is modelled on strings: the inner
macro `EXPAT_ADD_PREFIX_INNER(a, b) = a ## _ ## b` concatenates its two
(already expanded) tokens around an underscore, and the outer macro
`EXPAT_ADD_PREFIX(a, b)` forces expansion of its arguments (here: the
prefix token `EXPAT_PREFIX` is replaced by its value) before handing them
to the inner macro; in the string model that argument expansion is the
passing of the prefix token's value.
-/

/-- Value of the configurable prefix token `EXPAT_PREFIX` (line 18). -/
def expatPrefixToken : String := "AWS"

/-- The inner macro `EXPAT_ADD_PREFIX_INNER(a, b) = a ## _ ## b`
(line 21): token pasting around an underscore. -/
def EXPAT_ADD_PREFIX_INNER (a b : String) : String := a ++ "_" ++ b

/-- The outer macro `EXPAT_ADD_PREFIX(a, b)` (line 20): delegates to the
inner macro after argument expansion. -/
def EXPAT_ADD_PREFIX_OUTER (a b : String) : String :=
  EXPAT_ADD_PREFIX_INNER a b

/-- What one `#define S EXPAT_ADD_PREFIX(EXPAT_PREFIX, S)` line rewrites
the symbol `S` to. -/
def expatRename (s : String) : String :=
  EXPAT_ADD_PREFIX_OUTER expatPrefixToken s

/-- The symbols listed in expat_prefix_symbols.h lines 23-98, in file
order. -/
def expatPrefixTable : List String :=
  [ "XmlGetUtf16InternalEncoding"
  , "XmlGetUtf8InternalEncoding"
  , "XmlInitEncoding"
  , "XmlInitUnknownEncoding"
  , "XmlParseXmlDecl"
  , "XmlSizeOfUnknownEncoding"
  , "XmlUtf16Encode"
  , "XmlUtf8Encode"
  , "_INTERNAL_trim_to_complete_utf8_characters"
  , "XML_DefaultCurrent"
  , "XML_ErrorString"
  , "XML_ExpatVersion"
  , "XML_ExpatVersionInfo"
  , "XML_ExternalEntityParserCreate"
  , "XML_FreeContentModel"
  , "XML_GetBase"
  , "XML_GetBuffer"
  , "XML_GetCurrentByteCount"
  , "XML_GetCurrentByteIndex"
  , "XML_GetCurrentColumnNumber"
  , "XML_GetCurrentLineNumber"
  , "XML_GetErrorCode"
  , "XML_GetFeatureList"
  , "XML_GetIdAttributeIndex"
  , "XML_GetInputContext"
  , "XML_GetParsingStatus"
  , "XML_GetSpecifiedAttributeCount"
  , "XML_MemFree"
  , "XML_MemMalloc"
  , "XML_MemRealloc"
  , "XML_Parse"
  , "XML_ParseBuffer"
  , "XML_ParserCreate"
  , "XML_ParserCreateNS"
  , "XML_ParserCreate_MM"
  , "XML_ParserFree"
  , "XML_ParserReset"
  , "XML_ResumeParser"
  , "XML_SetAttlistDeclHandler"
  , "XML_SetBase"
  , "XML_SetCdataSectionHandler"
  , "XML_SetCharacterDataHandler"
  , "XML_SetCommentHandler"
  , "XML_SetDefaultHandler"
  , "XML_SetDefaultHandlerExpand"
  , "XML_SetDoctypeDeclHandler"
  , "XML_SetElementDeclHandler"
  , "XML_SetElementHandler"
  , "XML_SetEncoding"
  , "XML_SetEndCdataSectionHandler"
  , "XML_SetEndDoctypeDeclHandler"
  , "XML_SetEndElementHandler"
  , "XML_SetEndNamespaceDeclHandler"
  , "XML_SetEntityDeclHandler"
  , "XML_SetExternalEntityRefHandler"
  , "XML_SetExternalEntityRefHandlerArg"
  , "XML_SetHashSalt"
  , "XML_SetNamespaceDeclHandler"
  , "XML_SetNotStandaloneHandler"
  , "XML_SetNotationDeclHandler"
  , "XML_SetParamEntityParsing"
  , "XML_SetProcessingInstructionHandler"
  , "XML_SetReturnNSTriplet"
  , "XML_SetSkippedEntityHandler"
  , "XML_SetStartCdataSectionHandler"
  , "XML_SetStartDoctypeDeclHandler"
  , "XML_SetStartElementHandler"
  , "XML_SetStartNamespaceDeclHandler"
  , "XML_SetUnknownEncodingHandler"
  , "XML_SetUnparsedEntityDeclHandler"
  , "XML_SetUserData"
  , "XML_SetXmlDeclHandler"
  , "XML_StopParser"
  , "XML_UseForeignDTD"
  , "XML_UseParserAsHandlerArg"
  , "XmlPrologStateInit"
  ]

/-!
Checksum routines declared by Sources/CSotoCRC/include/crc32.h and
Sources/CSotoCore/include/crc32.h.  The implementation file (a vendored
zlib-family crc32.c) is part of the repository but not present in the
excerpt, so the computation is modelled from the spec.
-/

/-- Modelled from the spec: the reflected generator polynomial of
standard CRC32 (the zlib `crc32` entry point the header declares). -/
def crc32Polynomial : Nat := 0xEDB88320

/-- Modelled from the spec: the reflected Castagnoli generator
polynomial of CRC32C ("Castagnoli polynomial", distinct from the
standard CRC32 polynomial). -/
def crc32cPolynomial : Nat := 0x82F63B78

/-- One bit step of a reflected CRC: shift right, conditionally xor the
polynomial. -/
def crcBitStep (poly c : Nat) : Nat :=
  if c % 2 = 1 then (c / 2) ^^^ poly else c / 2

/-- Entry `n` of the byte-indexed CRC lookup table: eight bit steps. -/
def crcTableEntry (poly n : Nat) : Nat :=
  (List.range 8).foldl (fun c _ => crcBitStep poly c) n

/-- The 256-entry CRC lookup table for a polynomial. -/
def makeCrcTable (poly : Nat) : List Nat :=
  (List.range 256).map (crcTableEntry poly)

/-- Modelled from the spec: the hidden mutable state a zlib-family
table-driven CRC implementation may keep — lazily generated lookup
tables (`none` = not yet generated). -/
structure CrcHiddenState where
  /-- Lazily generated table of the standard CRC32. -/
  crc32Table : Option (List Nat)
  /-- Lazily generated table of CRC32C. -/
  crc32cTable : Option (List Nat)
deriving Repr, DecidableEq

/-- Fetch a CRC table from the hidden state, generating it on first
use. -/
def getCrcTable (poly : Nat) (t : Option (List Nat)) :
    List Nat × Option (List Nat) :=
  match t with
  | some tab => (tab, some tab)
  | none => (makeCrcTable poly, some (makeCrcTable poly))

/-- Modelled from the spec: the zlib-style table-driven running CRC
update — pre-invert the 32-bit accumulator, fold the table step over the
buffer bytes, post-invert. -/
def crcUpdateWithTable (tab : List Nat) (crc : Nat) (buf : List Nat) : Nat :=
  let c0 := (crc % 2 ^ 32) ^^^ 0xFFFFFFFF
  let c1 := buf.foldl (fun c b => tab.getD ((c ^^^ b % 256) % 256) 0 ^^^ c / 256) c0
  c1 ^^^ 0xFFFFFFFF

/-- Modelled from the spec: `soto_crc32(crc, buf, len)` — the running
CRC32 update the two headers declare, over the hidden table state.
Returns the updated accumulator and the hidden state after the call. -/
def soto_crc32 (s : CrcHiddenState) (crc : Nat) (buf : List Nat) :
    Nat × CrcHiddenState :=
  match getCrcTable crc32Polynomial s.crc32Table with
  | (tab, t2) => (crcUpdateWithTable tab crc buf, { s with crc32Table := t2 })

/-- Modelled from the spec: `soto_crc32c(crc, buf, len)` — the running
CRC32C (Castagnoli) update, over the hidden table state. -/
def soto_crc32c (s : CrcHiddenState) (crc : Nat) (buf : List Nat) :
    Nat × CrcHiddenState :=
  match getCrcTable crc32cPolynomial s.crc32cTable with
  | (tab, t2) => (crcUpdateWithTable tab crc buf, { s with crc32cTable := t2 })

/-- A hidden state is valid when each lazily generated table is either
absent or the correctly generated one. -/
def CrcHiddenState.Valid (s : CrcHiddenState) : Prop :=
  (s.crc32Table = none ∨ s.crc32Table = some (makeCrcTable crc32Polynomial)) ∧
  (s.crc32cTable = none ∨ s.crc32cTable = some (makeCrcTable crc32cPolynomial))

instance (s : CrcHiddenState) : Decidable s.Valid := by
  unfold CrcHiddenState.Valid; infer_instance

/-!
Shapes of the C declarations in the three public headers, for comparing
the two checksum header variants (CSotoCRC vs CSotoCore) and the platform
guard of c_awssdk_openssl.h.
-/

/-- A C type as it appears in the headers' signatures; `ucharConstPtr`
records whether the pointer carries the zlib `FAR` qualifier. -/
inductive CType where
  /-- `unsigned long`. -/
  | ulong
  /-- `const unsigned char *`, with or without the `FAR` qualifier. -/
  | ucharConstPtr (far : Bool)
  /-- `z_size_t`. -/
  | zSize
  /-- `HMAC_CTX *`. -/
  | hmacCtxPtr
  /-- `void`. -/
  | voidType
deriving Repr, DecidableEq

/-- A C function declaration: name, return type, parameter types. -/
structure CDecl where
  /-- Function name. -/
  name : String
  /-- Return type. -/
  ret : CType
  /-- Parameter types, in order. -/
  params : List CType
deriving Repr, DecidableEq

/-- The declarations of Sources/CSotoCRC/include/crc32.h (lines 17-18):
buffer parameter carries the `FAR` qualifier. -/
def csotoCRC_crc32_h : List CDecl :=
  [ ⟨"soto_crc32", CType.ulong,
      [CType.ulong, CType.ucharConstPtr true, CType.zSize]⟩
  , ⟨"soto_crc32c", CType.ulong,
      [CType.ulong, CType.ucharConstPtr true, CType.zSize]⟩ ]

/-- The declarations of Sources/CSotoCore/include/crc32.h (lines 17-21):
no `FAR` qualifier. -/
def csotoCore_crc32_h : List CDecl :=
  [ ⟨"soto_crc32", CType.ulong,
      [CType.ulong, CType.ucharConstPtr false, CType.zSize]⟩
  , ⟨"soto_crc32c", CType.ulong,
      [CType.ulong, CType.ucharConstPtr false, CType.zSize]⟩ ]

/-- Erase the `FAR` qualifier from a type. -/
def CType.eraseFAR : CType → CType
  | CType.ucharConstPtr _ => CType.ucharConstPtr false
  | t => t

/-- Erase the `FAR` qualifier everywhere in a declaration. -/
def CDecl.eraseFAR (d : CDecl) : CDecl :=
  ⟨d.name, d.ret.eraseFAR, d.params.map CType.eraseFAR⟩

/-- Whether a type carries the `FAR` qualifier. -/
def CType.hasFAR : CType → Bool
  | CType.ucharConstPtr f => f
  | _ => false

/-- Contents of a header under one preprocessor configuration. -/
structure HeaderAPI where
  /-- Headers it includes. -/
  includes : List String
  /-- Functions it declares. -/
  decls : List CDecl
deriving Repr, DecidableEq

/-- Sources/CAWSSDKOpenSSL/include/c_awssdk_openssl.h as a function of
the `__linux__` preprocessor conditional (lines 11-20): the OpenSSL
includes and the two shim declarations sit inside `#ifdef __linux__`,
and nothing else is in the header. -/
def c_awssdk_openssl_h (isLinux : Bool) : HeaderAPI :=
  if isLinux then
    { includes := ["openssl/hmac.h", "openssl/md5.h", "openssl/sha.h"],
      decls := [ ⟨"AWSSDK_HMAC_CTX_new", CType.hmacCtxPtr, []⟩
               , ⟨"AWSSDK_HMAC_CTX_free", CType.voidType, [CType.hmacCtxPtr]⟩ ] }
  else
    { includes := [], decls := [] }

/-- An init event (a `HMAC_CTX_init` call). -/
def Event.isInit : Event → Bool
  | Event.init _ => true
  | _ => false

/-- Filtering out an element that is not in a list leaves it unchanged. -/
theorem filter_ne_eq_self (a : Nat) (l : List Nat) (h : a ∉ l) :
    l.filter (· ≠ a) = l := by
  refine List.filter_eq_self.mpr (fun x hx => ?_)
  have hne : x ≠ a := fun hxa => h (hxa ▸ hx)
  simp [hne]

/-- C3: for a null handle, `AWSSDK_HMAC_CTX_free` is a safe no-op on both
compile branches — no primitive call is emitted and the library state is
unchanged. -/
theorem hmac_ctx_free_null_noop (s : LibState) :
    AWSSDK_HMAC_CTX_free_legacy none s = (s, []) ∧
    AWSSDK_HMAC_CTX_free_modern none s = (s, []) :=
  ⟨rfl, rfl⟩

/-- C4: on the legacy branch, freeing a non-null handle emits exactly the
cleanup call followed by the release, so `HMAC_CTX_cleanup` runs strictly
before `OPENSSL_free` on every non-null handle. -/
theorem hmac_ctx_free_legacy_cleanup_precedes_release
    (s : LibState) (h : Nat) :
    (AWSSDK_HMAC_CTX_free_legacy (some h) s).2 =
      [Event.cleanup h, Event.osslFree h] ∧
    ∃ i j : Nat, i < j ∧
      (AWSSDK_HMAC_CTX_free_legacy (some h) s).2[i]? =
        some (Event.cleanup h) ∧
      (AWSSDK_HMAC_CTX_free_legacy (some h) s).2[j]? =
        some (Event.osslFree h) :=
  ⟨rfl, 0, 1, Nat.zero_lt_one, rfl, rfl⟩

/-- C2: on both branches `AWSSDK_HMAC_CTX_new` returns null exactly when
the underlying allocator fails, and on the legacy branch the initializer
`HMAC_CTX_init` runs exactly when the manual allocation succeeded (never
on a null block). -/
theorem hmac_ctx_new_null_iff_alloc_fails (s : LibState) :
    ((AWSSDK_HMAC_CTX_new_legacy s).1 = none ↔ (OPENSSL_malloc s).1 = none) ∧
    ((AWSSDK_HMAC_CTX_new_modern s).1 = none ↔ (OPENSSL_malloc s).1 = none) ∧
    (AWSSDK_HMAC_CTX_new_legacy s).2.2.any Event.isInit =
      (OPENSSL_malloc s).1.isSome := by
  rcases s with ⟨sched, nh, alloc, ini⟩
  cases sched with
  | nil => exact ⟨Iff.rfl, Iff.rfl, rfl⟩
  | cons ok rest => cases ok <;> exact ⟨Iff.rfl, Iff.rfl, rfl⟩

/-- C1: the legacy and modern compile branches of the shim are
observationally equivalent on every library state: a `context_new`
followed by `context_free` of the returned handle returns the same
handle and the same final state under both configurations; the handles
currently allocated and initialized are exactly restored (the context is
fully released); and when non-null, the returned context was usable
(allocated and initialized) under both configurations. -/
theorem hmac_shim_branches_equiv (s : LibState) (hwf : s.WF) :
    roundTripLegacy s = roundTripModern s ∧
    (roundTripLegacy s).2.allocated = s.allocated ∧
    (roundTripLegacy s).2.initialized = s.initialized ∧
    (AWSSDK_HMAC_CTX_new_legacy s).1.all
      (fun h => (AWSSDK_HMAC_CTX_new_legacy s).2.1.allocated.contains h &&
                (AWSSDK_HMAC_CTX_new_legacy s).2.1.initialized.contains h)
      = true ∧
    (AWSSDK_HMAC_CTX_new_modern s).1.all
      (fun h => (AWSSDK_HMAC_CTX_new_modern s).2.1.allocated.contains h &&
                (AWSSDK_HMAC_CTX_new_modern s).2.1.initialized.contains h)
      = true := by
  obtain ⟨ha, hi⟩ := hwf
  rcases s with ⟨sched, nh, alloc, ini⟩
  cases sched with
  | nil => exact ⟨rfl, rfl, rfl, rfl, rfl⟩
  | cons ok rest =>
    cases ok with
    | false => exact ⟨rfl, rfl, rfl, rfl, rfl⟩
    | true =>
      refine ⟨rfl, ?_, ?_, ?_, ?_⟩
      · show List.filter (· ≠ nh) (nh :: alloc) = alloc
        simp only [List.filter_cons, ne_eq, decide_not]
        simp
        intro a hma hanh
        exact ha (hanh ▸ hma)
      · show List.filter (· ≠ nh) (nh :: ini) = ini
        simp only [List.filter_cons, ne_eq, decide_not]
        simp
        intro a hma hanh
        exact hi (hanh ▸ hma)
      · show ((nh :: alloc).contains nh && (nh :: ini).contains nh) = true
        simp
      · show ((nh :: alloc).contains nh && (nh :: ini).contains nh) = true
        simp

/-- C1 witness: a concrete well-formed state with one successful
allocation scheduled. -/
theorem hmac_shim_branches_equiv_witness :
    LibState.WF ⟨[true], 0, [], []⟩ ∧
    (roundTripLegacy ⟨[true], 0, [], []⟩ =
       roundTripModern ⟨[true], 0, [], []⟩ ∧
     (roundTripLegacy ⟨[true], 0, [], []⟩).2.allocated = [] ∧
     (roundTripLegacy ⟨[true], 0, [], []⟩).2.initialized = [] ∧
     (AWSSDK_HMAC_CTX_new_legacy ⟨[true], 0, [], []⟩).1.all
       (fun h =>
         (AWSSDK_HMAC_CTX_new_legacy ⟨[true], 0, [], []⟩).2.1.allocated.contains h &&
         (AWSSDK_HMAC_CTX_new_legacy ⟨[true], 0, [], []⟩).2.1.initialized.contains h)
       = true ∧
     (AWSSDK_HMAC_CTX_new_modern ⟨[true], 0, [], []⟩).1.all
       (fun h =>
         (AWSSDK_HMAC_CTX_new_modern ⟨[true], 0, [], []⟩).2.1.allocated.contains h &&
         (AWSSDK_HMAC_CTX_new_modern ⟨[true], 0, [], []⟩).2.1.initialized.contains h)
       = true) :=
  ⟨by decide, hmac_shim_branches_equiv ⟨[true], 0, [], []⟩ (by decide)⟩

/-- C5: every symbol listed in the expat prefix table is rewritten by the
two-level macro expansion to exactly the original name preceded by the
configured prefix token and an underscore, i.e. `S` becomes `AWS_S`. -/
theorem expat_prefix_table_rewrite :
    ∀ s ∈ expatPrefixTable, expatRename s = "AWS_" ++ s := by
  decide

/-- C5 witness: the rewrite at the concrete table entry `XML_Parse`. -/
theorem expat_prefix_table_rewrite_witness :
    "XML_Parse" ∈ expatPrefixTable ∧
    expatRename "XML_Parse" = "AWS_" ++ "XML_Parse" :=
  ⟨by decide, expat_prefix_table_rewrite "XML_Parse" (by decide)⟩

/-- C9: the two checksum header variants declare the same two functions,
`soto_crc32` and `soto_crc32c`, with identical names and signatures
except that only the CSotoCRC variant carries the `FAR` qualifier, and it
carries it exactly on the buffer parameter. -/
theorem crc32_headers_agree :
    csotoCRC_crc32_h.map CDecl.eraseFAR = csotoCore_crc32_h ∧
    csotoCore_crc32_h.map CDecl.eraseFAR = csotoCore_crc32_h ∧
    csotoCRC_crc32_h.map CDecl.name = ["soto_crc32", "soto_crc32c"] ∧
    csotoCore_crc32_h.map CDecl.name = ["soto_crc32", "soto_crc32c"] ∧
    csotoCRC_crc32_h.all
      (fun d => d.params.map CType.hasFAR == [false, true, false]) = true ∧
    csotoCore_crc32_h.all
      (fun d => d.params.all (fun t => ! t.hasFAR) && ! d.ret.hasFAR) = true := by
  decide

/-- C10: the context shim's header contributes declarations only when
compiling for Linux — under the `__linux__` conditional it declares
exactly the two shim functions and includes the three OpenSSL headers,
and on every non-Linux platform it declares no functions and includes
nothing. -/
theorem c_awssdk_openssl_h_linux_only :
    (c_awssdk_openssl_h false).decls = [] ∧
    (c_awssdk_openssl_h false).includes = [] ∧
    (c_awssdk_openssl_h true).decls.map CDecl.name =
      ["AWSSDK_HMAC_CTX_new", "AWSSDK_HMAC_CTX_free"] ∧
    (c_awssdk_openssl_h true).includes =
      ["openssl/hmac.h", "openssl/md5.h", "openssl/sha.h"] := by
  decide

/-- A valid crc32 table component makes the `soto_crc32` result equal to
the update with the generated table, independent of the hidden state. -/
theorem soto_crc32_fst_of_valid (s : CrcHiddenState)
    (h : s.crc32Table = none ∨
         s.crc32Table = some (makeCrcTable crc32Polynomial))
    (crc : Nat) (buf : List Nat) :
    (soto_crc32 s crc buf).1 =
      crcUpdateWithTable (makeCrcTable crc32Polynomial) crc buf := by
  rcases h with h | h <;> simp [soto_crc32, getCrcTable, h]

/-- A valid crc32c table component makes the `soto_crc32c` result equal
to the update with the generated table, independent of the hidden
state. -/
theorem soto_crc32c_fst_of_valid (s : CrcHiddenState)
    (h : s.crc32cTable = none ∨
         s.crc32cTable = some (makeCrcTable crc32cPolynomial))
    (crc : Nat) (buf : List Nat) :
    (soto_crc32c s crc buf).1 =
      crcUpdateWithTable (makeCrcTable crc32cPolynomial) crc buf := by
  rcases h with h | h <;> simp [soto_crc32c, getCrcTable, h]

/-- Both checksum calls leave the hidden state valid. -/
theorem crc_calls_preserve_valid (s : CrcHiddenState) (hv : s.Valid)
    (crc : Nat) (buf : List Nat) :
    (soto_crc32 s crc buf).2.Valid ∧ (soto_crc32c s crc buf).2.Valid := by
  obtain ⟨h1, h2⟩ := hv
  constructor
  · refine ⟨Or.inr ?_, ?_⟩
    · rcases h1 with h1 | h1 <;> simp [soto_crc32, getCrcTable, h1]
    · rcases h1 with h1 | h1 <;> simp [soto_crc32, getCrcTable, h1] <;> exact h2
  · refine ⟨?_, Or.inr ?_⟩
    · rcases h2 with h2 | h2 <;> simp [soto_crc32c, getCrcTable, h2] <;> exact h1
    · rcases h2 with h2 | h2 <;> simp [soto_crc32c, getCrcTable, h2]

/-- C7: `soto_crc32` and `soto_crc32c` are deterministic: on any two
valid hidden states, identical arguments give identical results, and
repeating the identical call on the state left by the first call returns
the same value — no dependence on the hidden mutable table state. -/
theorem crc32_deterministic (s1 s2 : CrcHiddenState)
    (h1 : s1.Valid) (h2 : s2.Valid) (crc : Nat) (buf : List Nat) :
    (soto_crc32 s1 crc buf).1 = (soto_crc32 s2 crc buf).1 ∧
    (soto_crc32c s1 crc buf).1 = (soto_crc32c s2 crc buf).1 ∧
    (soto_crc32 (soto_crc32 s1 crc buf).2 crc buf).1 =
      (soto_crc32 s1 crc buf).1 ∧
    (soto_crc32c (soto_crc32c s1 crc buf).2 crc buf).1 =
      (soto_crc32c s1 crc buf).1 := by
  have p1 := crc_calls_preserve_valid s1 h1 crc buf
  refine ⟨?_, ?_, ?_, ?_⟩
  · rw [soto_crc32_fst_of_valid s1 h1.1 crc buf,
        soto_crc32_fst_of_valid s2 h2.1 crc buf]
  · rw [soto_crc32c_fst_of_valid s1 h1.2 crc buf,
        soto_crc32c_fst_of_valid s2 h2.2 crc buf]
  · rw [soto_crc32_fst_of_valid _ p1.1.1 crc buf,
        soto_crc32_fst_of_valid s1 h1.1 crc buf]
  · rw [soto_crc32c_fst_of_valid _ p1.2.2 crc buf,
        soto_crc32c_fst_of_valid s1 h1.2 crc buf]

/-- C7 witness: determinism at two concrete valid hidden states (one
with no table generated, one with the crc32 table already generated) on
a concrete call. -/
theorem crc32_deterministic_witness :
    CrcHiddenState.Valid ⟨none, none⟩ ∧
    CrcHiddenState.Valid ⟨some (makeCrcTable crc32Polynomial), none⟩ ∧
    ((soto_crc32 ⟨none, none⟩ 1 [2, 3]).1 =
       (soto_crc32 ⟨some (makeCrcTable crc32Polynomial), none⟩ 1 [2, 3]).1 ∧
     (soto_crc32c ⟨none, none⟩ 1 [2, 3]).1 =
       (soto_crc32c ⟨some (makeCrcTable crc32Polynomial), none⟩ 1 [2, 3]).1 ∧
     (soto_crc32 (soto_crc32 ⟨none, none⟩ 1 [2, 3]).2 1 [2, 3]).1 =
       (soto_crc32 ⟨none, none⟩ 1 [2, 3]).1 ∧
     (soto_crc32c (soto_crc32c ⟨none, none⟩ 1 [2, 3]).2 1 [2, 3]).1 =
       (soto_crc32c ⟨none, none⟩ 1 [2, 3]).1) :=
  ⟨⟨Or.inl rfl, Or.inl rfl⟩, ⟨Or.inr rfl, Or.inl rfl⟩,
   crc32_deterministic ⟨none, none⟩ ⟨some (makeCrcTable crc32Polynomial), none⟩
     ⟨Or.inl rfl, Or.inl rfl⟩ ⟨Or.inr rfl, Or.inl rfl⟩ 1 [2, 3]⟩

/-- C8: on accumulator 0 and the empty buffer, `soto_crc32` returns 0,
and `soto_crc32c` returns 0, from any hidden table state. -/
theorem crc32_empty_input (s : CrcHiddenState) :
    (soto_crc32 s 0 []).1 = 0 ∧ (soto_crc32c s 0 []).1 = 0 := by
  rcases s with ⟨t1, t2⟩
  cases t1 <;> cases t2 <;>
    simp [soto_crc32, soto_crc32c, getCrcTable, crcUpdateWithTable]
